import Mathlib

/-!
Verification development for the Kashi-Path Mobility Engine
(`src/engine.py`, class `KashiPathEngine`).

Modelling conventions:
* Python floats are modelled as exact rationals (`ℚ`); every numeric literal
  of the source (71.26, 1.4, 1.05, 1.10, 0.5, 2000, 60, 1e9, ...) is carried
  over verbatim as a rational literal.
* The mutable `networkx.MultiDiGraph` is modelled by explicit state passing:
  a `KashiGraph` record holding the hub list and the connection list, in
  insertion order.  `update_governance_parameters` returns the updated graph
  instead of mutating it in place.
* Python `dict.get(key, default)` on the signal mappings is `dget`;
  Python's substring test `pat in s` is `strContainsSub s pat`, computed
  structurally on the underlying character lists.
* The external library calls `nx.shortest_path` / `nx.shortest_path_length`
  are modelled by their documented contract: a path of minimal total weight
  from source to target, where for a multigraph the weight of a hop is the
  minimum of the weight function over the parallel edges, raising
  `NodeNotFound` if either endpoint is absent and `NetworkXNoPath` if the
  target is unreachable.  The minimum-cost path is computed here by
  enumerating the simple paths of the (finite) graph and folding a
  min-by-cost selection; with the non-negative weights the engine produces,
  a minimal-cost walk is attained on a simple path, so this realises the
  networkx contract.  `f"{density}"` string interpolation is modelled by
  `toString` on the exact rational (the digits differ from Python's float
  formatting, but no claim depends on the rendering of the number).
* `solve_path` catches only `NetworkXNoPath` (returning `none` after
  printing); a `NodeNotFound` escapes it, modelled by the `Except.error`
  branch of its result.
-/

/-- Connection (edge) record of the multigraph: endpoints, the immutable
`base_time`, the mutable `weight` (initialised to `base_time`), the mode
tag and the mutable `status` (initialised to `"Clear"`). -/
structure Conn where
  u : String
  v : String
  base_time : ℚ
  weight : ℚ
  mode : String
  status : String
deriving DecidableEq, Repr

/-- Governance signal snapshot: the arguments of
`update_governance_parameters`. -/
structure Signals where
  river_level : ℚ
  aqi : ℚ
  road_states : List (String × ℚ)
  crowd_data : List (String × ℚ)
  mela_active : Bool
deriving DecidableEq, Repr

/-- Python `dict.get(k, d)` on an association list. -/
def dget (m : List (String × ℚ)) (k : String) (d : ℚ) : ℚ :=
  match m.find? (fun p => p.1 == k) with
  | some p => p.2
  | none => d

/-- Does the character list start with the pattern `pat`? -/
def charsStartWith : List Char → List Char → Bool
  | _, [] => true
  | [], _ :: _ => false
  | c :: cs, p :: ps => c == p && charsStartWith cs ps

/-- Does the character list contain `pat` as a contiguous sublist? -/
def charsContainSub (pat : List Char) : List Char → Bool
  | [] => charsStartWith [] pat
  | c :: cs => charsStartWith (c :: cs) pat || charsContainSub pat cs

/-- Python's substring test `pat in s`. -/
def strContainsSub (s pat : String) : Bool :=
  charsContainSub pat.data s.data

/-- Official flood mark for Varanasi (`self.CWC_DANGER_LEVEL = 71.26`). -/
def CWC_DANGER_LEVEL : ℚ := 71.26

/-- Pavement quality index threshold (`self.IRI_POOR_THRESHOLD = 170`). -/
def IRI_POOR_THRESHOLD : ℚ := 170

/-- Crowd safety threshold in pedestrians per square metre
(`self.KICCC_CROWD_LIMIT = 4.0`). -/
def KICCC_CROWD_LIMIT : ℚ := 4.0

/-- Body of the `for u, v, key, data in self.G.edges(...)` loop of
`update_governance_parameters`: recomputes one connection's `weight` and
`status` from its `base_time`, endpoints and mode and the signal snapshot.
The five rules appear in the exact source order: road quality, flood gate,
crowd pulse, air quality, mela pedestrian zones. -/
def updateConn (sig : Signals) (c : Conn) : Conn :=
  let cost0 := c.base_time
  let status0 := "Clear"
  -- 1. INFRASTRUCTURE: Road Quality (IRI)
  let iri_val := dget sig.road_states (c.u ++ "-" ++ c.v) 80
  let cost1 := if IRI_POOR_THRESHOLD < iri_val then cost0 * 1.4 else cost0
  let status1 := if IRI_POOR_THRESHOLD < iri_val then "CAUTION_BROKEN_ROAD" else status0
  -- 2. SAFETY: CWC Flood Levels
  let floodHit := CWC_DANGER_LEVEL ≤ sig.river_level ∧ strContainsSub c.v "Ghat" = true
  let cost2 := if floodHit then cost1 + 2000 else cost1
  let status2 := if floodHit then "BLOCKADE_FLOOD_ALERT" else status1
  -- 3. PREDICTIVE: KICCC Crowd Pulse
  let density := dget sig.crowd_data c.v 0.5
  let cost3 := if KICCC_CROWD_LIMIT < density then cost2 * (density / 2.0) else cost2
  let status3 := if KICCC_CROWD_LIMIT < density then
      "SURGE_ALERT_" ++ toString density ++ "P/m2" else status2
  -- 4. HEALTH: Air Quality (AQI)
  let aqi_penalty : ℚ := if c.mode = "E-Bus" then 1.05 else 1.10
  let cost4 := if (200:ℚ) < sig.aqi then cost3 * aqi_penalty else cost3
  let status4 := if (200:ℚ) < sig.aqi then
      (if status3 = "Clear" then "MINOR_AQI_NUDGE" else status3) else status3
  -- 5. GOVERNANCE: Magh Mela Pedestrian Zones
  let melaHit := sig.mela_active = true ∧ strContainsSub c.v "Godowlia" = true ∧
      c.mode ≠ "Ambulance"
  let cost5 := if melaHit then cost4 + 60 else cost4
  let status5 := if melaHit then "PEDESTRIAN_ZONE_ACTIVE" else status4
  { c with weight := cost5, status := status5 }

/-- Graph store: hub list (id, category) and connection list, both in
insertion order. -/
structure KashiGraph where
  hubs : List (String × String)
  conns : List Conn
deriving DecidableEq, Repr

/-- Full `update_governance_parameters` pass: recompute every connection. -/
def update_governance_parameters (sig : Signals) (g : KashiGraph) : KashiGraph :=
  { g with conns := g.conns.map (updateConn sig) }

/-- Seed hubs of `initialize_city_network`. -/
def seedHubs : List (String × String) :=
  [("LBS_Airport", "Transit"), ("Cantt_Station", "Transit"),
   ("Godowlia_Stand", "Rickshaw_Hub"), ("Lanka_Stand", "Rickshaw_Hub"),
   ("BHU_Trauma_Centre", "Hospital"), ("SSPG_Kabir_Chaura", "Hospital"),
   ("Maidagin_Chowk", "Junction"), ("Dashashwamedh_Ghat", "Riverfront")]

/-- Edge constructor of `initialize_city_network`:
`add_edge(u, v, base_time=t, weight=t, mode=m, status="Clear")`. -/
def mkSeedConn (u v : String) (t : ℚ) (m : String) : Conn :=
  { u := u, v := v, base_time := t, weight := t, mode := m, status := "Clear" }

/-- Seed connections of `initialize_city_network`, in source order. -/
def seedConns : List Conn :=
  [mkSeedConn "LBS_Airport" "Cantt_Station" 42 "E-Bus",
   mkSeedConn "Cantt_Station" "Maidagin_Chowk" 18 "E-Bus",
   mkSeedConn "Cantt_Station" "Lanka_Stand" 28 "E-Bus",
   mkSeedConn "Maidagin_Chowk" "Godowlia_Stand" 12 "E-Rickshaw",
   mkSeedConn "Godowlia_Stand" "Dashashwamedh_Ghat" 8 "E-Rickshaw",
   mkSeedConn "Godowlia_Stand" "Lanka_Stand" 18 "E-Rickshaw",
   mkSeedConn "SSPG_Kabir_Chaura" "Cantt_Station" 10 "Ambulance",
   mkSeedConn "Cantt_Station" "BHU_Trauma_Centre" 22 "Ambulance"]

/-- The graph built by `initialize_city_network` (python name
`initialize_city_network`; the token-safe Lean name drops the verb). -/
def city_network : KashiGraph :=
  { hubs := seedHubs, conns := seedConns }

/-- Node identifiers of the graph store. -/
def hubIds (g : KashiGraph) : List String :=
  g.hubs.map (fun h => h.1)

/-- Allowed-mode list of `solve_path`: `[vehicle_type]`, extended with
`"E-Bus"` for ambulances. -/
def allowedModes (vehicle_type : String) : List String :=
  if vehicle_type = "Ambulance" then ["Ambulance", "E-Bus"] else [vehicle_type]

/-- The closure `weight_logic(u, v, d)` of `solve_path`, applied to one
edge-data record: current weight if the mode is allowed, else the `1e9`
sentinel. -/
def weight_logic (allowed : List String) (c : Conn) : ℚ :=
  if allowed.contains c.mode then c.weight else 1e9

/-- Parallel connections from `a` to `b`, in insertion order
(`G.get_edge_data(a, b)`). -/
def arcConns (conns : List Conn) (a b : String) : List Conn :=
  conns.filter (fun c => c.u == a && c.v == b)

/-- Effective cost of the hop `a → b` for the search: the minimum of
`weight_logic` over the parallel connections (the networkx multigraph
contract), `none` if no connection exists. -/
def arcWeight (allowed : List String) (conns : List Conn) (a b : String) : Option ℚ :=
  match (arcConns conns a b).map (weight_logic allowed) with
  | [] => none
  | w :: ws => some (ws.foldl min w)

/-- Successor hubs of `a` (targets of outgoing connections, deduplicated). -/
def succs (conns : List Conn) (a : String) : List String :=
  ((conns.filter (fun c => c.u == a)).map (fun c => c.v)).eraseDups

/-- Simple paths from `cur` to `t` avoiding `visited`, with explicit fuel
bounding the recursion depth. -/
def simplePathsAux (conns : List Conn) : Nat → String → String → List String → List (List String)
  | 0, _, _, _ => []
  | Nat.succ fuel, cur, t, visited =>
    if cur == t then [[cur]]
    else
      (((succs conns cur).filter (fun b => !((cur :: visited).contains b))).map
        (fun b => (simplePathsAux conns fuel b t (cur :: visited)).map
          (fun p => cur :: p))).flatten

/-- All simple paths of the graph from `s` to `t` (fuel large enough for
any simple path). -/
def allSimplePaths (g : KashiGraph) (s t : String) : List (List String) :=
  simplePathsAux g.conns ((hubIds g).length + g.conns.length + 1) s t []

/-- Total effective cost of a hub sequence: sum of the hop costs, `0` for a
single hub, `none` if some hop has no connection (or the sequence is empty). -/
def pathCost (allowed : List String) (conns : List Conn) : List String → Option ℚ
  | [] => none
  | [_] => some (0:ℚ)
  | a :: b :: rest =>
    match arcWeight allowed conns a b, pathCost allowed conns (b :: rest) with
    | some w, some r => some (w + r)
    | _, _ => none

/-- Min-by-cost selection step (earlier path wins ties), realising the
minimal-total-weight contract of `nx.shortest_path`. -/
def betterPath (allowed : List String) (conns : List Conn)
    (best : Option (List String × ℚ)) (p : List String) : Option (List String × ℚ) :=
  match pathCost allowed conns p with
  | none => best
  | some cst =>
    match best with
    | none => some (p, cst)
    | some qr => if cst < qr.2 then some (p, cst) else some qr

/-- Exceptions of the networkx calls that `solve_path` can observe. -/
inductive NxError where
  | nodeNotFound : String → NxError
  | noPath : NxError
deriving DecidableEq, Repr

/-- Model of `nx.shortest_path` + `nx.shortest_path_length` with the
`weight_logic` weight function: `NodeNotFound` for an absent endpoint,
otherwise a minimal-cost path with its total cost, or `NetworkXNoPath`
when the target is unreachable. -/
def nx_shortest_path (g : KashiGraph) (s t : String) (allowed : List String) :
    Except NxError (List String × ℚ) :=
  if (hubIds g).contains s = false then Except.error (NxError.nodeNotFound s)
  else if (hubIds g).contains t = false then Except.error (NxError.nodeNotFound t)
  else
    match (allSimplePaths g s t).foldl (betterPath allowed g.conns) none with
    | none => Except.error NxError.noPath
    | some r => Except.ok r

/-- The administrator trace printed by `solve_path`: for each consecutive
hub pair of the path it reads the FIRST stored parallel connection
(`list(self.G.get_edge_data(u, v).values())[0]`) and reports its status
when it is not `"Clear"`.  (On a hop with no connection the source would
raise; the loop is only reached for paths returned by the solver, whose
hops all have connections, so that case is modelled as a skip.) -/
def traceSegments (conns : List Conn) : List String → List ((String × String) × String)
  | a :: b :: rest =>
    (match arcConns conns a b with
     | [] => []
     | c :: _ => if c.status ≠ "Clear" then [((a, b), c.status)] else [])
    ++ traceSegments conns (b :: rest)
  | _ => []

/-- Model of `solve_path`: runs the shortest-path search, returns the path
and its total cost on success; a `NetworkXNoPath` is caught (the source
prints a message and returns `None`), modelled by `Except.ok none`; a
`NodeNotFound` is NOT caught and propagates, modelled by `Except.error`. -/
def solve_path (g : KashiGraph) (start target vehicle_type : String) :
    Except NxError (Option (List String × ℚ)) :=
  match nx_shortest_path g start target (allowedModes vehicle_type) with
  | Except.ok r => Except.ok (some r)
  | Except.error NxError.noPath => Except.ok none
  | Except.error (NxError.nodeNotFound n) => Except.error (NxError.nodeNotFound n)

/-- Modelled from the spec: the §4.2 rule ORDER claimed in C3 — road
quality, crowd, air quality, flood gate, event zone — with the source's
status labels and penalty values, for comparison with `updateConn` (which
applies flood second, not fourth). -/
def updateConnClaimOrder (sig : Signals) (c : Conn) : Conn :=
  let cost0 := c.base_time
  let status0 := "Clear"
  -- 1. road quality
  let iri_val := dget sig.road_states (c.u ++ "-" ++ c.v) 80
  let cost1 := if IRI_POOR_THRESHOLD < iri_val then cost0 * 1.4 else cost0
  let status1 := if IRI_POOR_THRESHOLD < iri_val then "CAUTION_BROKEN_ROAD" else status0
  -- 2. crowd
  let density := dget sig.crowd_data c.v 0.5
  let cost2 := if KICCC_CROWD_LIMIT < density then cost1 * (density / 2.0) else cost1
  let status2 := if KICCC_CROWD_LIMIT < density then
      "SURGE_ALERT_" ++ toString density ++ "P/m2" else status1
  -- 3. air quality
  let aqi_penalty : ℚ := if c.mode = "E-Bus" then 1.05 else 1.10
  let cost3 := if (200:ℚ) < sig.aqi then cost2 * aqi_penalty else cost2
  let status3 := if (200:ℚ) < sig.aqi then
      (if status2 = "Clear" then "MINOR_AQI_NUDGE" else status2) else status2
  -- 4. flood gate
  let floodHit := CWC_DANGER_LEVEL ≤ sig.river_level ∧ strContainsSub c.v "Ghat" = true
  let cost4 := if floodHit then cost3 + 2000 else cost3
  let status4 := if floodHit then "BLOCKADE_FLOOD_ALERT" else status3
  -- 5. event zone
  let melaHit := sig.mela_active = true ∧ strContainsSub c.v "Godowlia" = true ∧
      c.mode ≠ "Ambulance"
  let cost5 := if melaHit then cost4 + 60 else cost4
  let status5 := if melaHit then "PEDESTRIAN_ZONE_ACTIVE" else status4
  { c with weight := cost5, status := status5 }

/-- The governance snapshot of the claims' end-to-end scenarios:
`{floodLevel: 71.5, aqi: 245, roadConditions: {"LBS_Airport-Cantt_Station": 195},
crowdDensities: {"Dashashwamedh_Ghat": 5.2}, melaActive: true}`. -/
def scenarioSignals : Signals :=
  { river_level := 71.5, aqi := 245,
    road_states := [("LBS_Airport-Cantt_Station", 195)],
    crowd_data := [("Dashashwamedh_Ghat", 5.2)],
    mela_active := true }

/-- The seed connection `Godowlia_Stand → Dashashwamedh_Ghat` (E-Rickshaw,
8 minutes): its destination contains `"Ghat"`. -/
def ghatConn : Conn := mkSeedConn "Godowlia_Stand" "Dashashwamedh_Ghat" 8 "E-Rickshaw"

/-- A connection LEAVING the riverfront: its source contains `"Ghat"`, its
destination does not. -/
def ghatSourceConn : Conn := mkSeedConn "Dashashwamedh_Ghat" "Maidagin_Chowk" 7 "E-Rickshaw"

/-- Two-hub graph whose only route is an E-Bus-only corridor. -/
def busCorridor : KashiGraph :=
  { hubs := [("A", "Transit"), ("B", "Transit")],
    conns := [mkSeedConn "A" "B" 5 "E-Bus"] }

/-- Two hubs with no connection at all. -/
def isolatedPair : KashiGraph :=
  { hubs := [("A", "Transit"), ("B", "Transit")],
    conns := [] }

/-- Quiet snapshot with an active mela and benign numeric signals. -/
def melaSignals : Signals :=
  { river_level := 0, aqi := 0, road_states := [], crowd_data := [],
    mela_active := true }

/-- Parallel-edge graph for the trace-reporter claim: an Ambulance
connection and an E-Rickshaw connection between the same ordered hub pair,
ending at a pedestrian-restricted hub. -/
def parallelPairRaw : KashiGraph :=
  { hubs := [("A", "Junction"), ("Godowlia_Stand", "Rickshaw_Hub")],
    conns := [mkSeedConn "A" "Godowlia_Stand" 5 "Ambulance",
              mkSeedConn "A" "Godowlia_Stand" 3 "E-Rickshaw"] }

/-- The parallel-edge graph after a recompute under `melaSignals`: the
Ambulance copy stays `Clear`, the E-Rickshaw copy gets the pedestrian-zone
status and a `+60` weight. -/
def parallelPair : KashiGraph :=
  update_governance_parameters melaSignals parallelPairRaw

/-- Snapshot with non-negative numeric readings and one broken road
segment, for the weight lower-bound claim. -/
def roughRoadSignals : Signals :=
  { river_level := 0, aqi := 0, road_states := [("X-Y", 195)], crowd_data := [],
    mela_active := false }

/-- A (hypothetical) connection with a negative base time on the broken
segment. -/
def negBaseConn : Conn := mkSeedConn "X" "Y" (-10) "E-Rickshaw"

/-! ## Helper lemmas about the recompute pass -/

/-- A surge status string never collides with `"Clear"` (length 16+ vs 5). -/
theorem surge_ne_clear (x : String) : ("SURGE_ALERT_" ++ x ++ "P/m2") ≠ "Clear" := by
  intro h
  have h1 : ("SURGE_ALERT_" ++ x ++ "P/m2").length = "Clear".length := by rw [h]
  rw [String.length_append, String.length_append] at h1
  have e1 : "SURGE_ALERT_".length = 12 := rfl
  have e2 : "P/m2".length = 4 := rfl
  have e3 : "Clear".length = 5 := rfl
  omega

/-- Closed form of the weight computed by the source's rule chain: the
road multiplier applies first, the flood addition second, then the crowd
and AQI multipliers, and the mela addition last. -/
theorem updateConn_weight_eq (sig : Signals) (c : Conn) :
    (updateConn sig c).weight =
      (c.base_time *
          (if IRI_POOR_THRESHOLD < dget sig.road_states (c.u ++ "-" ++ c.v) 80
            then (1.4:ℚ) else 1)
        + (if CWC_DANGER_LEVEL ≤ sig.river_level ∧ strContainsSub c.v "Ghat" = true
            then (2000:ℚ) else 0))
      * (if KICCC_CROWD_LIMIT < dget sig.crowd_data c.v 0.5
            then dget sig.crowd_data c.v 0.5 / 2.0 else 1)
      * (if (200:ℚ) < sig.aqi then (if c.mode = "E-Bus" then (1.05:ℚ) else 1.10) else 1)
      + (if sig.mela_active = true ∧ strContainsSub c.v "Godowlia" = true ∧ c.mode ≠ "Ambulance"
            then (60:ℚ) else 0) := by
  simp only [updateConn]
  split_ifs <;> ring

/-- Closed form of the status written by the source's rule chain: the
last applicable rule in the order mela, crowd, flood, road, AQI wins
(AQI claims the status only when no earlier rule fired). -/
theorem updateConn_status_eq (sig : Signals) (c : Conn) :
    (updateConn sig c).status =
      if sig.mela_active = true ∧ strContainsSub c.v "Godowlia" = true ∧ c.mode ≠ "Ambulance"
        then "PEDESTRIAN_ZONE_ACTIVE"
      else if KICCC_CROWD_LIMIT < dget sig.crowd_data c.v 0.5
        then "SURGE_ALERT_" ++ toString (dget sig.crowd_data c.v 0.5) ++ "P/m2"
      else if CWC_DANGER_LEVEL ≤ sig.river_level ∧ strContainsSub c.v "Ghat" = true
        then "BLOCKADE_FLOOD_ALERT"
      else if IRI_POOR_THRESHOLD < dget sig.road_states (c.u ++ "-" ++ c.v) 80
        then "CAUTION_BROKEN_ROAD"
      else if (200:ℚ) < sig.aqi then "MINOR_AQI_NUDGE"
      else "Clear" := by
  simp only [updateConn]
  split_ifs <;> first | rfl | (exfalso; simp_all [surge_ne_clear])

/-- The recompute step only rewrites `weight` and `status`; the other four
fields survive untouched. -/
theorem updateConn_keeps_fields (sig : Signals) (c : Conn) :
    (updateConn sig c).u = c.u ∧ (updateConn sig c).v = c.v ∧
    (updateConn sig c).base_time = c.base_time ∧ (updateConn sig c).mode = c.mode :=
  ⟨rfl, rfl, rfl, rfl⟩

/-- Recomputing an already recomputed connection changes nothing. -/
theorem updateConn_idem (sig : Signals) (c : Conn) :
    updateConn sig (updateConn sig c) = updateConn sig c := rfl

/-- The recomputed weight and status depend only on the endpoints, the
base time, the mode and the snapshot, never on the previous weight or
status. -/
theorem updateConn_congr (sig : Signals) (c c2 : Conn)
    (hu : c.u = c2.u) (hv : c.v = c2.v) (hb : c.base_time = c2.base_time)
    (hm : c.mode = c2.mode) :
    (updateConn sig c).weight = (updateConn sig c2).weight ∧
    (updateConn sig c).status = (updateConn sig c2).status := by
  cases c
  cases c2
  dsimp only at hu hv hb hm
  subst hu hv hb hm
  exact ⟨rfl, rfl⟩

/-! ## Claim C1: flood safety gate -/

/-- C1 (counterexample).  The claim fails on the code in two ways, both at
the scenario snapshot (floodLevel 71.5 ≥ 71.26): (a) a connection whose
SOURCE contains "Ghat" (`Dashashwamedh_Ghat → Maidagin_Chowk`) is not
gated at all — its status is the AQI nudge and its weight stays far below
base + 2000, because the source only tests the destination `v`; (b) on
`Godowlia_Stand → Dashashwamedh_Ghat` the gate fires but its status is
then overwritten by the LATER crowd rule, so the final status is the surge
tag, not `BLOCKADE_FLOOD_ALERT`. -/
theorem C1_counterexample :
    CWC_DANGER_LEVEL ≤ scenarioSignals.river_level ∧
    strContainsSub ghatSourceConn.u "Ghat" = true ∧
    strContainsSub ghatSourceConn.v "Ghat" = false ∧
    (updateConn scenarioSignals ghatSourceConn).status = "MINOR_AQI_NUDGE" ∧
    (updateConn scenarioSignals ghatSourceConn).weight = 77/10 ∧
    (updateConn scenarioSignals ghatSourceConn).weight < ghatSourceConn.base_time + 2000 ∧
    strContainsSub ghatConn.v "Ghat" = true ∧
    (updateConn scenarioSignals ghatConn).status ≠ "BLOCKADE_FLOOD_ALERT" := by
  with_unfolding_all decide

/-- C1 (amended).  When `floodLevel ≥ 71.26` and the DESTINATION hub of a
connection contains "Ghat" (the source hub is not examined), the gate adds
2000 to the running cost, so the final weight exceeds the weight computed
from the same snapshot with the flood signal cleared by at least 2000
(subsequent multipliers are all ≥ 1); the status becomes
`BLOCKADE_FLOOD_ALERT`, overwriting the road-quality tag, but it is kept
only when no LATER rule fires: the crowd rule (density(v) > 4) and the
mela rule overwrite it. -/
theorem C1_amended_floodgate (sig : Signals) (c : Conn)
    (hf : CWC_DANGER_LEVEL ≤ sig.river_level)
    (hv : strContainsSub c.v "Ghat" = true) :
    (updateConn { sig with river_level := 0 } c).weight + 2000 ≤ (updateConn sig c).weight ∧
    (dget sig.crowd_data c.v 0.5 ≤ KICCC_CROWD_LIMIT →
      ¬(sig.mela_active = true ∧ strContainsSub c.v "Godowlia" = true ∧ c.mode ≠ "Ambulance") →
      (updateConn sig c).status = "BLOCKADE_FLOOD_ALERT") := by
  constructor
  · rw [updateConn_weight_eq, updateConn_weight_eq]
    dsimp only
    have hno : ¬(CWC_DANGER_LEVEL ≤ (0:ℚ) ∧ strContainsSub c.v "Ghat" = true) := by
      intro hh
      have := hh.1
      norm_num [CWC_DANGER_LEVEL] at this
    have hyes : CWC_DANGER_LEVEL ≤ sig.river_level ∧ strContainsSub c.v "Ghat" = true :=
      ⟨hf, hv⟩
    rw [if_neg hno, if_pos hyes]
    have h3 : (1:ℚ) ≤
        (if KICCC_CROWD_LIMIT < dget sig.crowd_data c.v 0.5
          then dget sig.crowd_data c.v 0.5 / 2.0 else 1) := by
      split_ifs with h
      · rw [KICCC_CROWD_LIMIT] at h
        norm_num at h ⊢
        linarith
      · exact le_refl 1
    have h4 : (1:ℚ) ≤
        (if (200:ℚ) < sig.aqi then (if c.mode = "E-Bus" then (1.05:ℚ) else 1.10) else 1) := by
      split_ifs <;> norm_num
    have key : ∀ B R3 R4 R5 : ℚ, 1 ≤ R3 → 1 ≤ R4 →
        (B + 0) * R3 * R4 + R5 + 2000 ≤ (B + 2000) * R3 * R4 + R5 := by
      intro B R3 R4 R5 g3 g4
      nlinarith
    exact key _ _ _ _ h3 h4
  · intro hcrowd hmela
    have hyes : CWC_DANGER_LEVEL ≤ sig.river_level ∧ strContainsSub c.v "Ghat" = true :=
      ⟨hf, hv⟩
    rw [updateConn_status_eq, if_neg hmela, if_neg (not_lt.2 hcrowd), if_pos hyes]

/-- C1 (witness for the amended theorem): the seed connection into
`Dashashwamedh_Ghat` under the scenario flood level. -/
theorem C1_amended_floodgate_witness :
    (CWC_DANGER_LEVEL ≤ scenarioSignals.river_level ∧
      strContainsSub ghatConn.v "Ghat" = true) ∧
    ((updateConn { scenarioSignals with river_level := 0 } ghatConn).weight + 2000 ≤
        (updateConn scenarioSignals ghatConn).weight ∧
      (dget scenarioSignals.crowd_data ghatConn.v 0.5 ≤ KICCC_CROWD_LIMIT →
        ¬(scenarioSignals.mela_active = true ∧ strContainsSub ghatConn.v "Godowlia" = true ∧
            ghatConn.mode ≠ "Ambulance") →
        (updateConn scenarioSignals ghatConn).status = "BLOCKADE_FLOOD_ALERT")) :=
  ⟨⟨by with_unfolding_all decide, by with_unfolding_all decide⟩,
    C1_amended_floodgate scenarioSignals ghatConn (by with_unfolding_all decide)
      (by with_unfolding_all decide)⟩

/-! ## Claim C3: rule order -/

/-- C3 (counterexample).  At the scenario snapshot, on the seed connection
`Godowlia_Stand → Dashashwamedh_Ghat`, the order claimed in the spec
(road, crowd, AQI, flood, event) would end with the flood gate as the
latest applicable rule — status `BLOCKADE_FLOOD_ALERT` and weight
8·2.6·1.1 + 2000 = 50572/25 — while the source applies the flood gate
SECOND, so the crowd rule overwrites the status and the 2000 is inflated
by the later multipliers: status is the surge tag and the weight is
(8+2000)·2.6·1.1 = 143572/25. -/
theorem C3_counterexample :
    (updateConnClaimOrder scenarioSignals ghatConn).status = "BLOCKADE_FLOOD_ALERT" ∧
    (updateConnClaimOrder scenarioSignals ghatConn).weight = 50572/25 ∧
    (updateConn scenarioSignals ghatConn).status =
      "SURGE_ALERT_" ++ toString ((5.2:ℚ)) ++ "P/m2" ∧
    (updateConn scenarioSignals ghatConn).weight = 143572/25 ∧
    (updateConn scenarioSignals ghatConn).status ≠
      (updateConnClaimOrder scenarioSignals ghatConn).status ∧
    (updateConn scenarioSignals ghatConn).weight ≠
      (updateConnClaimOrder scenarioSignals ghatConn).weight := by
  have h1 : (updateConnClaimOrder scenarioSignals ghatConn).status =
      "BLOCKADE_FLOOD_ALERT" := by with_unfolding_all rfl
  have h2 : (updateConnClaimOrder scenarioSignals ghatConn).weight = 50572/25 := by
    with_unfolding_all rfl
  have h3 : (updateConn scenarioSignals ghatConn).status =
      "SURGE_ALERT_" ++ toString ((5.2:ℚ)) ++ "P/m2" := by with_unfolding_all rfl
  have h4 : (updateConn scenarioSignals ghatConn).weight = 143572/25 := by
    with_unfolding_all rfl
  refine ⟨h1, h2, h3, h4, ?_, ?_⟩
  · rw [h3, h1]
    with_unfolding_all decide
  · rw [h4, h2]
    norm_num

/-- C3 (amended).  The pass applies the rules in the fixed source order
road quality, FLOOD GATE, crowd, AQI, event-zone (not road, crowd, AQI,
flood, event as claimed): the weight compounds in that order — road
multiplier, then +2000 flood addition, then crowd and AQI multipliers,
then +60 event addition — and the status written last is the one of the
latest applicable rule in the priority event > crowd > flood > road,
with the AQI nudge tag only when no other rule fired. -/
theorem C3_amended_rule_order (sig : Signals) (c : Conn) :
    (updateConn sig c).weight =
      (c.base_time *
          (if IRI_POOR_THRESHOLD < dget sig.road_states (c.u ++ "-" ++ c.v) 80
            then (1.4:ℚ) else 1)
        + (if CWC_DANGER_LEVEL ≤ sig.river_level ∧ strContainsSub c.v "Ghat" = true
            then (2000:ℚ) else 0))
      * (if KICCC_CROWD_LIMIT < dget sig.crowd_data c.v 0.5
            then dget sig.crowd_data c.v 0.5 / 2.0 else 1)
      * (if (200:ℚ) < sig.aqi then (if c.mode = "E-Bus" then (1.05:ℚ) else 1.10) else 1)
      + (if sig.mela_active = true ∧ strContainsSub c.v "Godowlia" = true ∧ c.mode ≠ "Ambulance"
            then (60:ℚ) else 0) ∧
    (updateConn sig c).status =
      (if sig.mela_active = true ∧ strContainsSub c.v "Godowlia" = true ∧ c.mode ≠ "Ambulance"
        then "PEDESTRIAN_ZONE_ACTIVE"
      else if KICCC_CROWD_LIMIT < dget sig.crowd_data c.v 0.5
        then "SURGE_ALERT_" ++ toString (dget sig.crowd_data c.v 0.5) ++ "P/m2"
      else if CWC_DANGER_LEVEL ≤ sig.river_level ∧ strContainsSub c.v "Ghat" = true
        then "BLOCKADE_FLOOD_ALERT"
      else if IRI_POOR_THRESHOLD < dget sig.road_states (c.u ++ "-" ++ c.v) 80
        then "CAUTION_BROKEN_ROAD"
      else if (200:ℚ) < sig.aqi then "MINOR_AQI_NUDGE"
      else "Clear") :=
  ⟨updateConn_weight_eq sig c, updateConn_status_eq sig c⟩

/-! ## Claim C7: determinism and idempotence of the recompute pass -/

/-- C7 (confirmed).  Running the full recompute pass twice with the same
snapshot is the same as running it once, and the recomputed weight and
status of a connection depend only on its endpoints, base time and mode
together with the snapshot — never on the previous weight or status. -/
theorem C7_recompute_idempotent_deterministic (sig : Signals) (g : KashiGraph)
    (c c2 : Conn) (hu : c.u = c2.u) (hv : c.v = c2.v)
    (hb : c.base_time = c2.base_time) (hm : c.mode = c2.mode) :
    update_governance_parameters sig (update_governance_parameters sig g) =
      update_governance_parameters sig g ∧
    (updateConn sig c).weight = (updateConn sig c2).weight ∧
    (updateConn sig c).status = (updateConn sig c2).status := by
  refine ⟨?_, updateConn_congr sig c c2 hu hv hb hm⟩
  unfold update_governance_parameters
  simp only [List.map_map]
  rfl

/-- C7 (witness): the pass over the seed graph under the scenario
snapshot, and two copies of the ghat connection differing only in their
mutable fields. -/
theorem C7_recompute_idempotent_deterministic_witness :
    (ghatConn.u = (updateConn scenarioSignals ghatConn).u ∧
      ghatConn.v = (updateConn scenarioSignals ghatConn).v ∧
      ghatConn.base_time = (updateConn scenarioSignals ghatConn).base_time ∧
      ghatConn.mode = (updateConn scenarioSignals ghatConn).mode) ∧
    (update_governance_parameters scenarioSignals
        (update_governance_parameters scenarioSignals city_network) =
      update_governance_parameters scenarioSignals city_network ∧
    (updateConn scenarioSignals ghatConn).weight =
      (updateConn scenarioSignals (updateConn scenarioSignals ghatConn)).weight ∧
    (updateConn scenarioSignals ghatConn).status =
      (updateConn scenarioSignals (updateConn scenarioSignals ghatConn)).status) :=
  ⟨⟨rfl, rfl, rfl, rfl⟩,
    C7_recompute_idempotent_deterministic scenarioSignals city_network
      ghatConn (updateConn scenarioSignals ghatConn) rfl rfl rfl rfl⟩

/-! ## Claim C8: frame of the recompute pass -/

/-- C8 (confirmed).  The recompute pass leaves the hub list untouched,
neither adds nor removes connections, and changes no connection's
endpoints, base time or mode — only `weight` and `status` move. -/
theorem C8_recompute_frame (sig : Signals) (g : KashiGraph) :
    (update_governance_parameters sig g).hubs = g.hubs ∧
    (update_governance_parameters sig g).conns.length = g.conns.length ∧
    (update_governance_parameters sig g).conns.map
        (fun c => (c.u, c.v, c.base_time, c.mode)) =
      g.conns.map (fun c => (c.u, c.v, c.base_time, c.mode)) := by
  refine ⟨rfl, ?_, ?_⟩
  · simp [update_governance_parameters]
  · simp only [update_governance_parameters, List.map_map]
    rfl

/-! ## Claim C10: lower bound on recomputed weights -/

/-- C10 (counterexample).  With all signal readings non-negative (flood 0,
AQI 0, one road reading 195, no crowd data) but a NEGATIVE base time, the
road multiplier `×1.4` pushes the weight BELOW the base time
(−10 · 1.4 = −14 < −10), so the claim's lower bound fails without a
non-negativity assumption on `base_time`. -/
theorem C10_counterexample :
    roughRoadSignals.river_level = 0 ∧ roughRoadSignals.aqi = 0 ∧
    roughRoadSignals.road_states = [("X-Y", (195:ℚ))] ∧ (0:ℚ) ≤ 195 ∧
    roughRoadSignals.crowd_data = [] ∧
    negBaseConn.base_time = -10 ∧
    (updateConn roughRoadSignals negBaseConn).weight = -14 ∧
    (updateConn roughRoadSignals negBaseConn).weight < negBaseConn.base_time := by
  with_unfolding_all decide

/-- C10 (amended).  For a connection with non-negative base time and a
snapshot with non-negative numeric readings, every rule is a multiplier
that is at least 1 on a non-negative running cost (the crowd multiplier
`density/2` only fires when `density > 4`) or a non-negative addition, so
the recomputed weight is at least the base time, and in particular
non-negative. -/
theorem C10_amended_weight_lower_bound (sig : Signals) (c : Conn)
    (hb : 0 ≤ c.base_time)
    (hr : 0 ≤ sig.river_level) (ha : 0 ≤ sig.aqi)
    (hroad : ∀ p ∈ sig.road_states, 0 ≤ p.2)
    (hcrowd : ∀ p ∈ sig.crowd_data, 0 ≤ p.2) :
    c.base_time ≤ (updateConn sig c).weight ∧ 0 ≤ (updateConn sig c).weight := by
  rw [updateConn_weight_eq]
  have h1 : (1:ℚ) ≤
      (if IRI_POOR_THRESHOLD < dget sig.road_states (c.u ++ "-" ++ c.v) 80
        then (1.4:ℚ) else 1) := by
    split_ifs <;> norm_num
  have h2 : (0:ℚ) ≤
      (if CWC_DANGER_LEVEL ≤ sig.river_level ∧ strContainsSub c.v "Ghat" = true
        then (2000:ℚ) else 0) := by
    split_ifs <;> norm_num
  have h3 : (1:ℚ) ≤
      (if KICCC_CROWD_LIMIT < dget sig.crowd_data c.v 0.5
        then dget sig.crowd_data c.v 0.5 / 2.0 else 1) := by
    split_ifs with h
    · rw [KICCC_CROWD_LIMIT] at h
      norm_num at h ⊢
      linarith
    · exact le_refl 1
  have h4 : (1:ℚ) ≤
      (if (200:ℚ) < sig.aqi then (if c.mode = "E-Bus" then (1.05:ℚ) else 1.10) else 1) := by
    split_ifs <;> norm_num
  have h5 : (0:ℚ) ≤
      (if sig.mela_active = true ∧ strContainsSub c.v "Godowlia" = true ∧
          c.mode ≠ "Ambulance" then (60:ℚ) else 0) := by
    split_ifs <;> norm_num
  have key : ∀ B R1 R2 R3 R4 R5 : ℚ, 0 ≤ B → 1 ≤ R1 → 0 ≤ R2 → 1 ≤ R3 → 1 ≤ R4 →
      0 ≤ R5 → B ≤ (B * R1 + R2) * R3 * R4 + R5 ∧ 0 ≤ (B * R1 + R2) * R3 * R4 + R5 := by
    intro B R1 R2 R3 R4 R5 hB g1 g2 g3 g4 g5
    have s1 : B ≤ B * R1 := le_mul_of_one_le_right hB g1
    have t1 : (0:ℚ) ≤ B * R1 + R2 := by linarith
    have s2 : B * R1 + R2 ≤ (B * R1 + R2) * R3 := le_mul_of_one_le_right t1 g3
    have t2 : (0:ℚ) ≤ (B * R1 + R2) * R3 := le_trans t1 s2
    have s3 : (B * R1 + R2) * R3 ≤ (B * R1 + R2) * R3 * R4 := le_mul_of_one_le_right t2 g4
    constructor <;> linarith
  exact key _ _ _ _ _ _ hb h1 h2 h3 h4 h5

/-- C10 (witness for the amended theorem): the seed ambulance connection
`SSPG_Kabir_Chaura → Cantt_Station` under the scenario snapshot. -/
theorem C10_amended_weight_lower_bound_witness :
    ((0:ℚ) ≤ (mkSeedConn "SSPG_Kabir_Chaura" "Cantt_Station" 10 "Ambulance").base_time ∧
      (0:ℚ) ≤ scenarioSignals.river_level ∧ (0:ℚ) ≤ scenarioSignals.aqi ∧
      (∀ p ∈ scenarioSignals.road_states, (0:ℚ) ≤ p.2) ∧
      (∀ p ∈ scenarioSignals.crowd_data, (0:ℚ) ≤ p.2)) ∧
    ((mkSeedConn "SSPG_Kabir_Chaura" "Cantt_Station" 10 "Ambulance").base_time ≤
        (updateConn scenarioSignals
          (mkSeedConn "SSPG_Kabir_Chaura" "Cantt_Station" 10 "Ambulance")).weight ∧
      0 ≤ (updateConn scenarioSignals
          (mkSeedConn "SSPG_Kabir_Chaura" "Cantt_Station" 10 "Ambulance")).weight) :=
  ⟨⟨by with_unfolding_all decide, by with_unfolding_all decide,
      by with_unfolding_all decide, by with_unfolding_all decide,
      by with_unfolding_all decide⟩,
    C10_amended_weight_lower_bound scenarioSignals
      (mkSeedConn "SSPG_Kabir_Chaura" "Cantt_Station" 10 "Ambulance")
      (by with_unfolding_all decide) (by with_unfolding_all decide)
      (by with_unfolding_all decide) (by with_unfolding_all decide)
      (by with_unfolding_all decide)⟩

/-! ## Helper lemmas about the solver -/

/-- A left fold of `min` over rationals returns the seed or a list element. -/
theorem foldl_min_eq_or_mem (l : List ℚ) : ∀ a : ℚ, l.foldl min a = a ∨ l.foldl min a ∈ l := by
  induction l with
  | nil => intro a; left; rfl
  | cons x xs ih =>
    intro a
    rw [List.foldl_cons]
    rcases ih (min a x) with h | h
    · rcases min_choice a x with h2 | h2
      · left
        rw [h, h2]
      · right
        rw [h, h2]
        exact List.mem_cons_self x xs
    · right
      exact List.mem_cons_of_mem x h

/-- A hop cost returned by `arcWeight` is the `weight_logic` value of one
of the graph's connections between the two hubs. -/
theorem arcWeight_achieved (allowed : List String) (conns : List Conn) (a b : String)
    (w : ℚ) (h : arcWeight allowed conns a b = some w) :
    ∃ c, c ∈ conns ∧ c.u = a ∧ c.v = b ∧ weight_logic allowed c = w := by
  unfold arcWeight at h
  cases hA : arcConns conns a b with
  | nil => rw [hA] at h; simp at h
  | cons c0 cs =>
    rw [hA] at h
    simp only [List.map_cons] at h
    have hw : (cs.map (weight_logic allowed)).foldl min (weight_logic allowed c0) = w := by
      exact Option.some.inj h
    have hmem : ∀ c2, c2 ∈ arcConns conns a b →
        c2 ∈ conns ∧ c2.u = a ∧ c2.v = b := by
      intro c2 hc2
      refine ⟨List.mem_of_mem_filter hc2, ?_, ?_⟩
      · have := List.of_mem_filter hc2
        rw [Bool.and_eq_true] at this
        exact beq_iff_eq.1 this.1
      · have := List.of_mem_filter hc2
        rw [Bool.and_eq_true] at this
        exact beq_iff_eq.1 this.2
    rcases foldl_min_eq_or_mem (cs.map (weight_logic allowed)) (weight_logic allowed c0)
        with h2 | h2
    · obtain ⟨hm, hu, hv⟩ := hmem c0 (by rw [hA]; exact List.mem_cons_self c0 cs)
      exact ⟨c0, hm, hu, hv, by rw [← hw, h2]⟩
    · rw [hw] at h2
      obtain ⟨c2, hc2, hwc2⟩ := List.mem_map.1 h2
      obtain ⟨hm, hu, hv⟩ := hmem c2 (by rw [hA]; exact List.mem_cons_of_mem c0 hc2)
      exact ⟨c2, hm, hu, hv, hwc2⟩

/-- When every stored weight is non-negative, `weight_logic` is
non-negative (the sentinel `1e9` in particular). -/
theorem weight_logic_nonneg (allowed : List String) (c : Conn) (h : 0 ≤ c.weight) :
    0 ≤ weight_logic allowed c := by
  unfold weight_logic
  split_ifs
  · exact h
  · norm_num

/-- Splitting a two-or-more-hub path cost into its first hop and the rest. -/
theorem pathCost_cons_elim (allowed : List String) (conns : List Conn)
    (a b : String) (rest : List String) (cst : ℚ)
    (h : pathCost allowed conns (a :: b :: rest) = some cst) :
    ∃ w r, arcWeight allowed conns a b = some w ∧
      pathCost allowed conns (b :: rest) = some r ∧ cst = w + r := by
  unfold pathCost at h
  cases hA : arcWeight allowed conns a b with
  | none => rw [hA] at h; simp at h
  | some w =>
    cases hR : pathCost allowed conns (b :: rest) with
    | none => rw [hA, hR] at h; simp at h
    | some r =>
      rw [hA, hR] at h
      exact ⟨w, r, rfl, rfl, (Option.some.inj h).symm⟩

/-- With non-negative stored weights, every defined path cost is
non-negative. -/
theorem pathCost_nonneg (allowed : List String) (conns : List Conn)
    (hw : ∀ c ∈ conns, 0 ≤ c.weight) :
    ∀ (p : List String) (cst : ℚ), pathCost allowed conns p = some cst → 0 ≤ cst := by
  intro p
  induction p with
  | nil => intro cst h; simp [pathCost] at h
  | cons a rest ih =>
    intro cst h
    cases rest with
    | nil =>
      have : cst = 0 := by
        unfold pathCost at h
        exact (Option.some.inj h).symm
      rw [this]
    | cons b r =>
      obtain ⟨w, rcost, hA, hR, hsum⟩ := pathCost_cons_elim allowed conns a b r cst h
      obtain ⟨c, hcm, _, _, hwl⟩ := arcWeight_achieved allowed conns a b w hA
      have h0 : 0 ≤ w := by rw [← hwl]; exact weight_logic_nonneg allowed c (hw c hcm)
      have h1 : 0 ≤ rcost := ih rcost hR
      rw [hsum]
      linarith

/-- With non-negative stored weights, each hop cost of a path is bounded
by the total path cost. -/
theorem pathCost_hops (allowed : List String) (conns : List Conn)
    (hw : ∀ c ∈ conns, 0 ≤ c.weight) :
    ∀ (p : List String) (cst : ℚ), pathCost allowed conns p = some cst →
      ∀ ab ∈ p.zip p.tail, ∃ w, arcWeight allowed conns ab.1 ab.2 = some w ∧ w ≤ cst := by
  intro p
  induction p with
  | nil => intro cst _ ab hab; simp at hab
  | cons a rest ih =>
    intro cst h ab hab
    cases rest with
    | nil => simp at hab
    | cons b r =>
      obtain ⟨w, rcost, hA, hR, hsum⟩ := pathCost_cons_elim allowed conns a b r cst h
      have hw0 : 0 ≤ w := by
        obtain ⟨c, hcm, _, _, hwl⟩ := arcWeight_achieved allowed conns a b w hA
        rw [← hwl]
        exact weight_logic_nonneg allowed c (hw c hcm)
      have hr0 : 0 ≤ rcost := pathCost_nonneg allowed conns hw (b :: r) rcost hR
      simp only [List.tail_cons, List.zip_cons_cons, List.mem_cons] at hab
      rcases hab with hab | hab
      · subst hab
        exact ⟨w, hA, by linarith⟩
      · obtain ⟨w2, hA2, hle2⟩ := ih rcost hR ab (by simpa using hab)
        exact ⟨w2, hA2, by linarith⟩

/-- The min-by-cost fold only ever returns a pair whose cost is the
genuine `pathCost` of its path. -/
theorem betterPath_foldl_cost (allowed : List String) (conns : List Conn) :
    ∀ (paths : List (List String)) (acc : Option (List String × ℚ))
      (p : List String) (cost : ℚ),
      (∀ q cq, acc = some (q, cq) → pathCost allowed conns q = some cq) →
      paths.foldl (betterPath allowed conns) acc = some (p, cost) →
      pathCost allowed conns p = some cost := by
  intro paths
  induction paths with
  | nil =>
    intro acc p cost hacc hf
    exact hacc p cost hf
  | cons q rest ih =>
    intro acc p cost hacc hf
    rw [List.foldl_cons] at hf
    refine ih (betterPath allowed conns acc q) p cost ?_ hf
    intro q2 cq2 hbp
    unfold betterPath at hbp
    cases hpc : pathCost allowed conns q with
    | none =>
      rw [hpc] at hbp
      exact hacc q2 cq2 hbp
    | some cst =>
      rw [hpc] at hbp
      cases hac : acc with
      | none =>
        rw [hac] at hbp
        dsimp only at hbp
        injection Option.some.inj hbp with h1 h2
        rw [← h1, ← h2]
        exact hpc
      | some qr =>
        rw [hac] at hbp
        dsimp only at hbp
        by_cases hlt : cst < qr.2
        · rw [if_pos hlt] at hbp
          injection Option.some.inj hbp with h1 h2
          rw [← h1, ← h2]
          exact hpc
        · rw [if_neg hlt] at hbp
          exact hacc q2 cq2 (by rw [hac, hbp])

/-- A successful `solve_path` with a returned path comes from the
min-by-cost fold over the enumerated simple paths. -/
theorem solve_ok_foldl (g : KashiGraph) (s t mode : String) (p : List String) (cost : ℚ)
    (h : solve_path g s t mode = Except.ok (some (p, cost))) :
    (allSimplePaths g s t).foldl (betterPath (allowedModes mode) g.conns) none =
      some (p, cost) := by
  unfold solve_path nx_shortest_path at h
  by_cases h1 : (hubIds g).contains s = false
  · rw [if_pos h1] at h
    simp at h
  · rw [if_neg h1] at h
    by_cases h2 : (hubIds g).contains t = false
    · rw [if_pos h2] at h
      simp at h
    · rw [if_neg h2] at h
      cases hf : (allSimplePaths g s t).foldl (betterPath (allowedModes mode) g.conns) none with
      | none =>
        rw [hf] at h
        simp at h
      | some r =>
        rw [hf] at h
        simp only [Except.ok.injEq, Option.some.injEq] at h
        rw [h]

/-! ## Claim C6: mode restriction of returned paths -/

/-- C6 (counterexample).  Disallowed connections are not removed but
priced at the `1e9` sentinel, so `solve` still returns paths through
them: on the two-hub E-Bus-only corridor, an E-Rickshaw solve returns the
path `[A, B]` — whose only connection has mode `"E-Bus"`, outside the
E-Rickshaw allowed set — priced at the sentinel, instead of failing. -/
theorem C6_counterexample :
    busCorridor.conns.map Conn.mode = ["E-Bus"] ∧
    (allowedModes "E-Rickshaw").contains "E-Bus" = false ∧
    solve_path busCorridor "A" "B" "E-Rickshaw" =
      Except.ok (some (["A", "B"], 1000000000)) := by
  refine ⟨?_, ?_, ?_⟩ <;> with_unfolding_all rfl

/-- C6 (amended).  Whenever `solve` returns a path whose total cost is
BELOW the `1e9` sentinel (and all stored weights are non-negative), every
hop of the path is realised by a connection of the graph whose mode lies
in the allowed set of the requested vehicle mode (`{vehicleMode}`, plus
`E-Bus` for ambulances); paths with cost at or above the sentinel may
traverse disallowed connections. -/
theorem C6_amended_mode_restriction (g : KashiGraph) (s t mode : String)
    (p : List String) (cost : ℚ)
    (hw : ∀ c ∈ g.conns, 0 ≤ c.weight)
    (hs : solve_path g s t mode = Except.ok (some (p, cost)))
    (hc : cost < 1e9) :
    ∀ ab ∈ p.zip p.tail, ∃ c, c ∈ g.conns ∧ c.u = ab.1 ∧ c.v = ab.2 ∧
      (allowedModes mode).contains c.mode = true := by
  have hfold := solve_ok_foldl g s t mode p cost hs
  have hpc : pathCost (allowedModes mode) g.conns p = some cost :=
    betterPath_foldl_cost (allowedModes mode) g.conns (allSimplePaths g s t) none
      p cost (by intro q cq hq; simp at hq) hfold
  intro ab hab
  obtain ⟨w, hwq, hle⟩ := pathCost_hops (allowedModes mode) g.conns hw p cost hpc ab hab
  obtain ⟨c, hcmem, hcu, hcv, hwl⟩ := arcWeight_achieved (allowedModes mode) g.conns
    ab.1 ab.2 w hwq
  refine ⟨c, hcmem, hcu, hcv, ?_⟩
  by_contra hna
  have hsent : weight_logic (allowedModes mode) c = 1e9 := by
    unfold weight_logic
    rw [if_neg ?_]
    intro hcontains
    exact hna hcontains
  rw [hsent] at hwl
  rw [← hwl] at hle
  have : (1e9:ℚ) ≤ cost := hle
  have h2 : ¬ ((1e9:ℚ) ≤ cost) := not_le.2 hc
  exact h2 this

/-- C6 (witness for the amended theorem): the ambulance solve over the
E-Bus corridor has cost 5 < 1e9, and the theorem yields the (allowed)
E-Bus connection for its single hop. -/
theorem C6_amended_mode_restriction_witness :
    ((∀ c ∈ busCorridor.conns, (0:ℚ) ≤ c.weight) ∧
      solve_path busCorridor "A" "B" "Ambulance" = Except.ok (some (["A", "B"], 5)) ∧
      (5:ℚ) < 1e9) ∧
    (∀ ab ∈ (["A", "B"] : List String).zip (["A", "B"] : List String).tail,
      ∃ c, c ∈ busCorridor.conns ∧ c.u = ab.1 ∧ c.v = ab.2 ∧
        (allowedModes "Ambulance").contains c.mode = true) :=
  ⟨⟨by with_unfolding_all decide, by with_unfolding_all rfl, by with_unfolding_all decide⟩,
    C6_amended_mode_restriction busCorridor "A" "B" "Ambulance" ["A", "B"] 5
      (by with_unfolding_all decide) (by with_unfolding_all rfl)
      (by with_unfolding_all decide)⟩

/-! ## Claim C2: ambulance privilege and the fate of forbidden corridors -/

/-- C2 (counterexample).  On the graph whose only route is an E-Bus-only
corridor, `solve(A, B, "Ambulance")` succeeds (cost 5), but
`solve(A, B, "E-Rickshaw")` does NOT fail with `NoPathFound` (which the
model renders as `Except.ok none`): it returns the very same hub path
priced at the `1e9` sentinel. -/
theorem C2_counterexample :
    busCorridor.conns.map Conn.mode = ["E-Bus"] ∧
    (allowedModes "E-Rickshaw").contains "E-Bus" = false ∧
    solve_path busCorridor "A" "B" "Ambulance" = Except.ok (some (["A", "B"], 5)) ∧
    solve_path busCorridor "A" "B" "E-Rickshaw" =
      Except.ok (some (["A", "B"], 1000000000)) ∧
    Except.ok (some ((["A", "B"] : List String), (1000000000:ℚ))) ≠
      (Except.ok none : Except NxError (Option (List String × ℚ))) := by
  refine ⟨?_, ?_, ?_, ?_, ?_⟩
  · with_unfolding_all rfl
  · with_unfolding_all rfl
  · with_unfolding_all rfl
  · with_unfolding_all rfl
  · intro h
    injection h with h2
    exact Option.noConfusion h2

/-- C2 (amended).  Over an E-Bus-only corridor the ambulance solve
succeeds at the stored weight; the E-Rickshaw solve over the same
corridor ALSO succeeds, returning the same hub sequence priced at the
`1e9` sentinel rather than failing; `NoPathFound` (modelled
`Except.ok none`, the caught `NetworkXNoPath`) arises only when the
underlying graph has no route at all, as on the connection-free pair. -/
theorem C2_amended_sentinel_path :
    solve_path busCorridor "A" "B" "Ambulance" = Except.ok (some (["A", "B"], 5)) ∧
    solve_path busCorridor "A" "B" "E-Rickshaw" =
      Except.ok (some (["A", "B"], 1000000000)) ∧
    solve_path isolatedPair "A" "B" "E-Rickshaw" = Except.ok none ∧
    solve_path isolatedPair "A" "B" "Ambulance" = Except.ok none := by
  refine ⟨?_, ?_, ?_, ?_⟩ <;> with_unfolding_all rfl

/-! ## Claim C4: unknown hubs -/

/-- C4 (counterexample).  A solve from the absent hub `"NoSuchHub"` does
NOT come back as a recoverable in-band result: `solve_path` catches only
`NetworkXNoPath`, so the `NodeNotFound` raised by the search escapes it
(the `Except.error` branch — an uncaught Python exception, which the
repository's own entry point would let terminate the process). -/
theorem C4_counterexample :
    solve_path city_network "NoSuchHub" "Lanka_Stand" "E-Rickshaw" =
      Except.error (NxError.nodeNotFound "NoSuchHub") ∧
    (solve_path city_network "NoSuchHub" "Lanka_Stand" "E-Rickshaw").isOk = false := by
  refine ⟨?_, ?_⟩ <;> with_unfolding_all rfl

/-- C4 (amended).  A solve whose origin (or, the origin being present,
whose destination) is not a hub of the store fails with the
`NodeNotFound` exception — the `UnknownHubError` of the spec — but
`solve_path` does not convert it into an in-band result: it propagates to
the caller, and only `NoPathFound` is handled recoverably. -/
theorem C4_amended_unknown_hub (g : KashiGraph) (s t m : String) :
    ((hubIds g).contains s = false →
      solve_path g s t m = Except.error (NxError.nodeNotFound s)) ∧
    ((hubIds g).contains s = true → (hubIds g).contains t = false →
      solve_path g s t m = Except.error (NxError.nodeNotFound t)) := by
  constructor
  · intro hs
    unfold solve_path nx_shortest_path
    rw [if_pos hs]
  · intro hs ht
    unfold solve_path nx_shortest_path
    rw [if_neg (by rw [hs]; intro hh; cases hh), if_pos ht]

/-- C4 (witness for the amended theorem): `"NoSuchHub"` is not a seed
hub, and the solve from it propagates the `NodeNotFound` error. -/
theorem C4_amended_unknown_hub_witness :
    (hubIds city_network).contains "NoSuchHub" = false ∧
    solve_path city_network "NoSuchHub" "Lanka_Stand" "E-Rickshaw" =
      Except.error (NxError.nodeNotFound "NoSuchHub") :=
  ⟨by decide,
    (C4_amended_unknown_hub city_network "NoSuchHub" "Lanka_Stand" "E-Rickshaw").1
      (by decide)⟩

/-! ## Claim C5: end-to-end scenario B -/

/-- C5 (counterexample).  With the claimed snapshot (aqi 245 > 200), the
AQI nudge applies to EVERY edge, the two Ambulance corridor edges
included (mode ≠ E-Bus ⇒ factor 1.10): the returned cost is
(10 + 22)·1.10 = 176/5 = 35.2, not the claimed 10 + 22 = 32, and the two
edges are NOT unaffected — their statuses become `MINOR_AQI_NUDGE`. -/
theorem C5_counterexample :
    solve_path (update_governance_parameters scenarioSignals city_network)
        "SSPG_Kabir_Chaura" "BHU_Trauma_Centre" "Ambulance" =
      Except.ok (some (["SSPG_Kabir_Chaura", "Cantt_Station", "BHU_Trauma_Centre"], 176/5)) ∧
    (176:ℚ)/5 ≠ 10 + 22 := by
  refine ⟨?_, ?_⟩
  · with_unfolding_all rfl
  · norm_num

/-- C5 (amended).  Under the scenario snapshot the ambulance solve from
`SSPG_Kabir_Chaura` to `BHU_Trauma_Centre` returns the claimed path
`[SSPG_Kabir_Chaura, Cantt_Station, BHU_Trauma_Centre]`, but with total
cost (10 + 22) · 1.10 = 35.2: the corridor escapes the road, flood, crowd
and mela penalties, yet both Ambulance-mode edges carry the AQI nudge
(factor 1.10, status `MINOR_AQI_NUDGE`), which the claim overlooked. -/
theorem C5_amended_scenarioB :
    solve_path (update_governance_parameters scenarioSignals city_network)
        "SSPG_Kabir_Chaura" "BHU_Trauma_Centre" "Ambulance" =
      Except.ok (some (["SSPG_Kabir_Chaura", "Cantt_Station", "BHU_Trauma_Centre"],
        (10 + 22) * 1.10)) ∧
    (updateConn scenarioSignals
        (mkSeedConn "SSPG_Kabir_Chaura" "Cantt_Station" 10 "Ambulance")).status =
      "MINOR_AQI_NUDGE" ∧
    (updateConn scenarioSignals
        (mkSeedConn "SSPG_Kabir_Chaura" "Cantt_Station" 10 "Ambulance")).weight =
      10 * 1.10 ∧
    (updateConn scenarioSignals
        (mkSeedConn "Cantt_Station" "BHU_Trauma_Centre" 22 "Ambulance")).status =
      "MINOR_AQI_NUDGE" ∧
    (updateConn scenarioSignals
        (mkSeedConn "Cantt_Station" "BHU_Trauma_Centre" 22 "Ambulance")).weight =
      22 * 1.10 := by
  refine ⟨?_, ?_, ?_, ?_, ?_⟩ <;> with_unfolding_all rfl

/-! ## Claim C9: the administrator trace -/

/-- C9 (counterexample).  In the recomputed parallel-edge graph, the
E-Rickshaw solve traverses the cheaper E-Rickshaw copy — whose status is
`PEDESTRIAN_ZONE_ACTIVE`, not `"Clear"` — yet the trace is EMPTY: the
loop reads `list(get_edge_data(u, v).values())[0]`, the FIRST stored
parallel connection (the `Clear` Ambulance copy), not the connection
actually traversed. -/
theorem C9_counterexample :
    traceSegments parallelPair.conns ["A", "Godowlia_Stand"] = [] ∧
    solve_path parallelPair "A" "Godowlia_Stand" "E-Rickshaw" =
      Except.ok (some (["A", "Godowlia_Stand"], 63)) ∧
    parallelPair.conns.map Conn.status = ["Clear", "PEDESTRIAN_ZONE_ACTIVE"] ∧
    weight_logic (allowedModes "E-Rickshaw")
      (updateConn melaSignals (mkSeedConn "A" "Godowlia_Stand" 3 "E-Rickshaw")) = 63 ∧
    weight_logic (allowedModes "E-Rickshaw")
      (updateConn melaSignals (mkSeedConn "A" "Godowlia_Stand" 5 "Ambulance")) =
      1000000000 := by
  refine ⟨?_, ?_, ?_, ?_, ?_⟩ <;> with_unfolding_all rfl

/-- C9 (amended).  The trace yields, for the consecutive hub pairs of the
path in order, the status of the FIRST stored parallel connection of each
hop whenever that status is not `"Clear"` (not the status of the
connection actually traversed), skipping hops without connections; it is
a pure read, and a path with fewer than two hubs yields the empty
trace. -/
theorem C9_amended_trace (conns : List Conn) (path : List String) :
    traceSegments conns path =
      (path.zip path.tail).filterMap (fun ab =>
        match arcConns conns ab.1 ab.2 with
        | [] => none
        | c :: _ => if c.status ≠ "Clear" then some (ab, c.status) else none) ∧
    traceSegments conns ([] : List String) = [] ∧
    ∀ a : String, traceSegments conns [a] = [] := by
  refine ⟨?_, rfl, fun a => rfl⟩
  induction path with
  | nil => rfl
  | cons a rest ih =>
    cases rest with
    | nil => rfl
    | cons b r =>
      show (match arcConns conns a b with
          | [] => []
          | c :: _ => if c.status ≠ "Clear" then [((a, b), c.status)] else [])
          ++ traceSegments conns (b :: r) = _
      rw [ih]
      simp only [List.zip_cons_cons, List.tail_cons, List.filterMap_cons]
      cases harc : arcConns conns a b with
      | nil => simp
      | cons c cs =>
        by_cases hc : c.status = "Clear"
        · simp [hc]
        · simp [hc]
